import Mathlib

/-!
Shallow embedding of `src/_nebari/stages/infrastructure/__init__.py`
(the nebari Kubernetes-infrastructure stage): node-pool taint
defaulting, per-provider validation, provider selection, and
input-variable compilation, together with proofs about the claims of
the natural-language specification.

Python `None` is modelled by `Option.none`; a raw-document key that may
be absent is an outer `Option` (so `Option (Option _)` distinguishes a
missing key from an explicit `null`); raised exceptions are modelled by
`Except`.
-/

-- Decidable equality for `Except`, needed to evaluate the embedded
-- validators on concrete inputs.
deriving instance DecidableEq for Except

namespace Nebari

/-- Taint effect enumeration (`schema.TaintEffectEnum`). -/
inductive TaintEffectEnum
  | NoSchedule
  | PreferNoSchedule
  | NoExecute
deriving DecidableEq, Repr

/-- A node-pool taint (`schema.Taint`). -/
structure Taint where
  key : String
  value : String
  effect : TaintEffectEnum
deriving DecidableEq, Repr

/-- Base node-group record (`NodeGroup`).  The Python field `instance`
is a Lean keyword, so it is rendered `instance_`. -/
structure NodeGroup where
  instance_ : String
  min_nodes : Nat := 0
  max_nodes : Nat := 1
  taints : Option (List Taint) := none
deriving DecidableEq, Repr

/-- `DEFAULT_GENERAL_NODE_GROUP_TAINTS`. -/
def DEFAULT_GENERAL_NODE_GROUP_TAINTS : List Taint := []

/-- `DEFAULT_NODE_GROUP_TAINTS`. -/
def DEFAULT_NODE_GROUP_TAINTS : List Taint :=
  [{ key := "dedicated", value := "nebari", effect := .NoSchedule }]

/-- `set_missing_taints_to_default_taints`: a Python dict of node
groups is modelled as an (ordered) association list. -/
def set_missing_taints_to_default_taints
    (node_groups : List (String × NodeGroup)) : List (String × NodeGroup) :=
  node_groups.map fun p =>
    match p.2.taints with
    | none =>
      if p.1 = "general" then
        (p.1, { p.2 with taints := some DEFAULT_GENERAL_NODE_GROUP_TAINTS })
      else
        (p.1, { p.2 with taints := some DEFAULT_NODE_GROUP_TAINTS })
    | some _ => p

/-- `AWSNodeLaunchTemplate`. -/
structure AWSNodeLaunchTemplate where
  pre_bootstrap_command : Option String := none
  ami_id : Option String := none
deriving DecidableEq, Repr

/-- Python truthiness of `getattr(launch_template, "ami_id", None)`
guarded by the truthiness of `launch_template` itself (a pydantic
model instance is always truthy, `None` is falsy, and a string is
truthy iff non-empty). -/
def launch_template_has_truthy_ami_id : Option AWSNodeLaunchTemplate → Bool
  | none => false
  | some lt => (lt.ami_id.getD "") ≠ ""

/-- `construct_aws_ami_type`. -/
def construct_aws_ami_type (gpu_enabled : Bool)
    (launch_template : Option AWSNodeLaunchTemplate) : String :=
  if launch_template_has_truthy_ami_id launch_template then "CUSTOM"
  else if gpu_enabled then "AL2_x86_64_GPU"
  else "AL2_x86_64"

/-- Structured model of the `ValueError`s raised by the cloud-provider
validators.  Each constructor corresponds to one `raise` site in the
source and carries the data interpolated into that message. -/
inductive CloudError
  | unsupportedRegion (region : String) (available : List String)
  | keyError (key : String)
  | indexError
  | awsVersionRequestFailed
  | unsupportedVersion (version : String) (available : List String)
  | unsupportedZone (zone : String) (available : List String)
  | unsupportedInstance (inst : String) (available : List String)
  | invalidResourceGroupLength (suffix : String)
  | invalidResourceGroupChars
  | invalidResourceGroupPeriod
  | kmsKeyNotFound (arn : String) (available : List String)
  | kmsKeyNotCustomerManaged (key_id : String)
  | kmsKeyMacUsage (key_id : String)
  | kmsKeyWrongUsageNotSymmetric (key_id : String)
  | kmsKeyNotSymmetric (key_id : String)
deriving DecidableEq, Repr

/-- The message text of the three KMS `KeySpec != SYMMETRIC_DEFAULT`
diagnostics (quotation marks of the source messages elided).  Only
these three constructors need their text compared, to show the
diagnostics are pairwise distinct. -/
def CloudError.message : CloudError → String
  | .kmsKeyMacUsage key_id =>
    "Amazon Web Services KMS Key with ID " ++ key_id ++
      " does not have KeyUsage set to Encrypt and decrypt data"
  | .kmsKeyWrongUsageNotSymmetric key_id =>
    "Amazon Web Services KMS Key with ID " ++ key_id ++
      " is not of type Symmetric, and KeyUsage not set to Encrypt and decrypt data"
  | .kmsKeyNotSymmetric key_id =>
    "Amazon Web Services KMS Key with ID " ++ key_id ++
      " is not of type Symmetric"
  | _ => ""

/-- The kubernetes-version fragment of
`GoogleCloudPlatformProvider._check_input`: reading a missing
`kubernetes_version` key raises a `KeyError`; a present value passes
iff it is a prefix of some available version
(`any(v.startswith(str(data["kubernetes_version"])) ...)`). -/
def gcp_check_version (available_kubernetes_versions : List String)
    (kubernetes_version : Option String) : Except CloudError String :=
  match kubernetes_version with
  | none => .error (.keyError "kubernetes_version")
  | some kv =>
    if ¬ available_kubernetes_versions.any (fun v => kv.data.isPrefixOf v.data) then
      .error (.unsupportedVersion kv available_kubernetes_versions)
    else
      .ok kv

/-- The instance-type check shared in shape by
`GoogleCloudPlatformProvider._check_input` and
`AmazonWebServicesProvider._check_input`: only run when the raw data
has a `node_groups` key; the first node group whose `instance` is not
in the available set raises. -/
def check_node_group_instances (available_instances : List String)
    (node_groups : Option (List (String × NodeGroup))) : Except CloudError Unit :=
  match node_groups with
  | none => .ok ()
  | some ngs =>
    match ngs.find? (fun p => !(available_instances.contains p.2.instance_)) with
    | some p => .error (.unsupportedInstance p.2.instance_ available_instances)
    | none => .ok ()

/-- Raw data consumed by `GoogleCloudPlatformProvider._check_input`
(`region` is read unconditionally; `kubernetes_version` may be a
missing key; `node_groups` may be absent). -/
structure GCPRawData where
  region : String
  kubernetes_version : Option String
  node_groups : Option (List (String × NodeGroup))
deriving DecidableEq, Repr

/-- `GoogleCloudPlatformProvider._check_input`: region membership, then
kubernetes-version prefix check, then instance-type check. -/
def gcp_check_input (available_regions : List String)
    (kubernetes_versions : String → List String)
    (instances : String → List String)
    (data : GCPRawData) : Except CloudError GCPRawData := do
  if data.region ∉ available_regions then
    throw (.unsupportedRegion data.region available_regions)
  let kv ← gcp_check_version (kubernetes_versions data.region) data.kubernetes_version
  check_node_group_instances (instances data.region) data.node_groups
  return { data with kubernetes_version := some kv }

/-- `AzureProvider._validate_kubernetes_version` (a field validator):
`None` selects `available_kubernetes_versions[-1]` (an `IndexError` if
the inventory list is empty); a set value must be an exact member of
the available list. -/
def azure_validate_kubernetes_version (available_kubernetes_versions : List String)
    (value : Option String) : Except CloudError String :=
  match value with
  | none =>
    match available_kubernetes_versions.getLast? with
    | some v => .ok v
    | none => .error .indexError
  | some v =>
    if v ∉ available_kubernetes_versions then
      .error (.unsupportedVersion v available_kubernetes_versions)
    else
      .ok v

/-- One character of the Python regex class `[\w\-\.\(\)]` (with `\w`
modelled as ASCII alphanumeric or underscore). -/
def azure_resource_group_char (c : Char) : Bool :=
  c.isAlphanum || c = '_' || c = '-' || c = '.' || c = '(' || c = ')'

/-- `AzureProvider._validate_resource_group_name`: `None` passes
through; otherwise the name plus the node-resource-group suffix must
have length in `[1, 90]`, the name must fully match `^[\w\-\.\(\)]+$`,
and must not end with a period.  `AZURE_NODE_RESOURCE_GROUP_SUFFIX` is
imported from `_nebari.utils` (outside this stage), so the suffix is a
parameter here. -/
def azure_validate_resource_group_name (suffix : String)
    (value : Option String) : Except CloudError (Option String) :=
  match value with
  | none => .ok none
  | some v =>
    let length := v.length + suffix.length
    if length < 1 ∨ length > 90 then
      .error (.invalidResourceGroupLength suffix)
    else if ¬ (v.data ≠ [] ∧ v.data.all azure_resource_group_char) then
      .error .invalidResourceGroupChars
    else if v.data.getLast? = some '.' then
      .error .invalidResourceGroupPeriod
    else
      .ok (some v)

/-- A KMS key record as returned by the inventory
(`amazon_web_services.kms_key_arns`): `{Arn, KeyManager, KeySpec,
KeyUsage}`. -/
structure KmsKey where
  Arn : String
  KeyManager : String
  KeySpec : String
  KeyUsage : String
deriving DecidableEq, Repr

/-- Character-list comparison used to model Python `sorted` on strings
(lexicographic over code points). -/
def char_list_le : List Char → List Char → Bool
  | [], _ => true
  | _ :: _, [] => false
  | a :: as, b :: bs => if a = b then char_list_le as bs else decide (a < b)

/-- Insertion into a sorted list of strings. -/
def insert_sorted_string (x : String) : List String → List String
  | [] => [x]
  | y :: ys =>
    if char_list_le x.data y.data then x :: y :: ys else y :: insert_sorted_string x ys

/-- Python `sorted` on a list of strings. -/
def sorted_strings (l : List String) : List String :=
  l.foldr insert_sorted_string []

/-- Raw data consumed by `AmazonWebServicesProvider._check_input`.  The
keys `kubernetes_version` and `eks_kms_arn` are read as
possibly-absent keys whose value may also be an explicit `None`, hence
the nested `Option`. -/
structure AWSRawData where
  region : String
  kubernetes_version : Option (Option String)
  availability_zones : Option (List String)
  node_groups : Option (List (String × NodeGroup))
  eks_kms_arn : Option (Option String)
deriving DecidableEq, Repr

/-- The kubernetes-version fragment of
`AmazonWebServicesProvider._check_input`: a missing key raises a
`KeyError`; an empty inventory list raises; an explicit `None` value
is replaced by `available_kubernetes_versions[-1]`; a set value must
be an exact member of the available list. -/
def aws_check_version (available_kubernetes_versions : List String)
    (kubernetes_version : Option (Option String)) : Except CloudError String :=
  match kubernetes_version with
  | none => .error (.keyError "kubernetes_version")
  | some kvOpt =>
    if available_kubernetes_versions.length = 0 then
      .error .awsVersionRequestFailed
    else
      match kvOpt with
      | none => .ok (available_kubernetes_versions.getLastD "")
      | some v =>
        if v ∉ available_kubernetes_versions then
          .error (.unsupportedVersion v available_kubernetes_versions)
        else
          .ok v

/-- The availability-zone fragment of
`AmazonWebServicesProvider._check_input`: an absent key defaults to the
first two zones of the sorted inventory; a present list must be a
subset of the available zones. -/
def aws_check_zones (available_zones : List String)
    (availability_zones : Option (List String)) : Except CloudError (List String) :=
  match availability_zones with
  | none => .ok ((sorted_strings available_zones).take 2)
  | some zones =>
    match zones.find? (fun z => !(available_zones.contains z)) with
    | some z => .error (.unsupportedZone z available_zones)
    | none => .ok zones

/-- The key-id candidates of the KMS check:
`[id for id in available_kms_keys.keys() if id in data["eks_kms_arn"]]`
(a substring match of each key id against the supplied ARN). -/
def kms_candidate_ids (available_kms_keys : List (String × KmsKey))
    (arn : String) : List String :=
  (available_kms_keys.map Prod.fst).filter (fun id => decide (id.data <:+: arn.data))

/-- The ARNs listed in the not-found diagnostic:
`[v.Arn for v in available_kms_keys.values() if v.KeyManager == 'CUSTOMER' and v.KeySpec == 'SYMMETRIC_DEFAULT']`. -/
def kms_customer_symmetric_arns (available_kms_keys : List (String × KmsKey)) : List String :=
  (available_kms_keys.filter
      (fun p => p.2.KeyManager == "CUSTOMER" && p.2.KeySpec == "SYMMETRIC_DEFAULT")).map
    (fun p => p.2.Arn)

/-- The KMS fragment of `AmazonWebServicesProvider._check_input`: only
run when the `eks_kms_arn` key is present and not `None`. -/
def aws_check_kms (available_kms_keys : List (String × KmsKey))
    (eks_kms_arn : Option (Option String)) : Except CloudError Unit :=
  match eks_kms_arn with
  | some (some arn) =>
    let key_id := kms_candidate_ids available_kms_keys arn
    if key_id.length ≠ 1 ∨
        ((available_kms_keys.lookup (key_id.headD "")).getD
            { Arn := "", KeyManager := "", KeySpec := "", KeyUsage := "" }).Arn ≠ arn then
      .error (.kmsKeyNotFound arn (kms_customer_symmetric_arns available_kms_keys))
    else
      let kid := key_id.headD ""
      let key := (available_kms_keys.lookup kid).getD
        { Arn := "", KeyManager := "", KeySpec := "", KeyUsage := "" }
      if key.KeyManager ≠ "CUSTOMER" then
        .error (.kmsKeyNotCustomerManaged kid)
      else if key.KeySpec ≠ "SYMMETRIC_DEFAULT" then
        if key.KeyUsage = "GENERATE_VERIFY_MAC" then
          .error (.kmsKeyMacUsage kid)
        else if key.KeyUsage ≠ "ENCRYPT_DECRYPT" then
          .error (.kmsKeyWrongUsageNotSymmetric kid)
        else
          .error (.kmsKeyNotSymmetric kid)
      else
        .ok ()
  | _ => .ok ()

/-- `AmazonWebServicesProvider._check_input`: region membership,
kubernetes-version check, availability-zone check, instance-type
check, then the KMS-key check; the returned raw data carries the
defaulted version and zones.  The credential probe
(`amazon_web_services.check_credentials`) is an external collaborator
with no data flow into this logic and is not modelled. -/
def aws_check_input (available_regions : List String)
    (kubernetes_versions : String → List String)
    (zones : String → List String)
    (instances : String → List String)
    (kms_key_arns : String → List (String × KmsKey))
    (data : AWSRawData) : Except CloudError AWSRawData := do
  if data.region ∉ available_regions then
    throw (.unsupportedRegion data.region available_regions)
  let kv ← aws_check_version (kubernetes_versions data.region) data.kubernetes_version
  let zs ← aws_check_zones (zones data.region) data.availability_zones
  check_node_group_instances (instances data.region) data.node_groups
  aws_check_kms (kms_key_arns data.region) data.eks_kms_arn
  return { data with kubernetes_version := some (some kv), availability_zones := some zs }

/-- `schema.ProviderEnum`. -/
inductive ProviderEnum
  | localKind
  | existing
  | gcp
  | aws
  | azure
deriving DecidableEq, Repr

/-- `KeyValueDict` (also `NodeSelectorKeyValue`). -/
structure KeyValueDict where
  key : String
  value : String
deriving DecidableEq, Repr

/-- `_calculate_node_groups`, modelled over the fields of
`schema.Main` that it reads: the provider discriminator and the
`node_selectors` maps of the existing/local configs.  The final Python
`else` branch reads `config.local`, so `localKind` is the catch-all. -/
def calculate_node_groups (provider : ProviderEnum)
    (existing_node_selectors : List (String × KeyValueDict))
    (local_node_selectors : List (String × KeyValueDict)) :
    List (String × KeyValueDict) :=
  match provider with
  | .aws =>
    ["general", "user", "worker"].map
      (fun group => (group, { key := "eks.amazonaws.com/nodegroup", value := group }))
  | .gcp =>
    ["general", "user", "worker"].map
      (fun group => (group, { key := "cloud.google.com/gke-nodepool", value := group }))
  | .azure =>
    ["general", "user", "worker"].map
      (fun group => (group, { key := "azure-node-pool", value := group }))
  | .existing => existing_node_selectors
  | .localKind => local_node_selectors

/-- A raw top-level configuration document, restricted to the keys
`InputSchema.check_provider` reads: the optional `provider`
discriminator and the five provider-block keys.  A block key maps to
`none` when absent and to `some b` when present, where `b` is the
Python truthiness of its value. -/
structure RawDoc where
  provider : Option String
  local_ : Option Bool
  existing : Option Bool
  google_cloud_platform : Option Bool
  amazon_web_services : Option Bool
  azure : Option Bool
deriving DecidableEq, Repr

/-- The iteration order of `provider_name_abbreviation_map.keys()`
(derived from `schema.provider_enum_name_map`, which enumerates the
providers in declaration order of `ProviderEnum`). -/
def provider_block_keys : List String :=
  ["local", "existing", "google_cloud_platform", "amazon_web_services", "azure"]

/-- Dictionary access `data[key]` for the five block keys. -/
def block_value (d : RawDoc) : String → Option Bool
  | "local" => d.local_
  | "existing" => d.existing
  | "google_cloud_platform" => d.google_cloud_platform
  | "amazon_web_services" => d.amazon_web_services
  | "azure" => d.azure
  | _ => none

/-- Dictionary update `data[key] = v` for the five block keys. -/
def set_block (d : RawDoc) (key : String) (v : Option Bool) : RawDoc :=
  if key = "local" then { d with local_ := v }
  else if key = "existing" then { d with existing := v }
  else if key = "google_cloud_platform" then { d with google_cloud_platform := v }
  else if key = "amazon_web_services" then { d with amazon_web_services := v }
  else if key = "azure" then { d with azure := v }
  else d

/-- The member names of `schema.ProviderEnum`, as tested by
`hasattr(schema.ProviderEnum, provider)`. -/
def provider_kind_names : List String :=
  ["local", "existing", "gcp", "aws", "azure"]

/-- `schema.provider_enum_name_map`: provider kind → config block key. -/
def provider_enum_name_map : String → String
  | "gcp" => "google_cloud_platform"
  | "aws" => "amazon_web_services"
  | s => s

/-- `provider_name_abbreviation_map`: config block key → provider kind. -/
def provider_name_abbreviation_map : String → String
  | "google_cloud_platform" => "gcp"
  | "amazon_web_services" => "aws"
  | s => s

/-- The errors `InputSchema.check_provider` raises.  The
`unknownProvider` message lists the permitted kinds; the
`multipleProviders` message lists the present blocks. -/
inductive ProviderSelectError
  | unknownProvider (provider : String) (permitted : List String)
  | multipleProviders (blocks : List String)
deriving DecidableEq, Repr

/-- Result of `check_provider`: the (possibly updated) document plus
the `warnings.warn` calls it issued, each carrying the extra-block
set named in the warning text. -/
structure CheckProviderResult where
  doc : RawDoc
  warnings : List (List String)
deriving DecidableEq, Repr

/-- The block keys present in the document (regardless of value
truthiness), in key-iteration order — the `set_providers` list of the
no-explicit-provider branch of `check_provider`. -/
def present_blocks (d : RawDoc) : List String :=
  provider_block_keys.filter (fun k => (block_value d k).isSome)

/-- The block keys present with a truthy value — the `set_providers`
set of the explicit-provider branch of `check_provider`. -/
def truthy_blocks (d : RawDoc) : List String :=
  provider_block_keys.filter (fun k => (block_value d k).getD false)

/-- `InputSchema.check_provider`.  With an explicit `provider` key: an
unknown kind raises; for `local`/`existing` with no corresponding
block an empty default block (a truthy model instance) is synthesized;
blocks set for other providers only produce a warning.  Without an
explicit `provider` key: more than one present block raises, exactly
one is adopted, none defaults the provider to `local`. -/
def check_provider (d : RawDoc) : Except ProviderSelectError CheckProviderResult :=
  match d.provider with
  | some provider =>
    if provider ∈ provider_kind_names then
      let d1 :=
        if (provider = "local" ∨ provider = "existing") ∧ block_value d provider = none then
          set_block d provider (some true)
        else d
      let expected_provider_config := provider_enum_name_map provider
      let extra_provider_config :=
        (truthy_blocks d1).filter (fun k => k ≠ expected_provider_config)
      .ok { doc := d1,
            warnings := if extra_provider_config = [] then [] else [extra_provider_config] }
    else
      .error (.unknownProvider provider ["local", "existing", "aws", "gcp", "azure"])
  | none =>
    let set_providers := present_blocks d
    if 1 < set_providers.length then
      .error (.multipleProviders set_providers)
    else if set_providers.length = 1 then
      let adopted := provider_name_abbreviation_map (set_providers.headD "")
      .ok { doc := { d with provider := some adopted }, warnings := [] }
    else
      .ok { doc := { d with provider := some "local" }, warnings := [] }

/-- `ExistingProvider`: `kube_context` is optional with default `None`
and the class has no validator, so an empty `existing` block passes
provider validation with `kube_context = None`. -/
structure ExistingProvider where
  kube_context : Option String := none
  node_selectors : List (String × KeyValueDict) :=
    [("general", { key := "kubernetes.io/os", value := "linux" }),
     ("user", { key := "kubernetes.io/os", value := "linux" }),
     ("worker", { key := "kubernetes.io/os", value := "linux" })]
deriving DecidableEq, Repr

/-- `ExistingInputVars`: `kube_context: str` is a required string
field. -/
structure ExistingInputVars where
  kube_context : String
deriving DecidableEq, Repr

/-- Pydantic validation of a required `str` field: `None` is rejected
with `Input should be a valid string`. -/
def validate_required_str (v : Option String) : Except String String :=
  match v with
  | some s => .ok s
  | none => .error "Input should be a valid string"

/-- The existing-provider branch of
`KubernetesInfrastructureStage.input_vars`:
`ExistingInputVars(kube_context=self.config.existing.kube_context)`.
Constructing the record validates the required string field. -/
def existing_input_vars (config_existing : ExistingProvider) :
    Except String ExistingInputVars :=
  (validate_required_str config_existing.kube_context).map
    (fun s => { kube_context := s })

/-- `AWSNodeGroup` after provider validation: the base node-group
fields plus the AWS-specific flags (the `launch_template` field is
commented out in the source). -/
structure AWSNodeGroup where
  instance_ : String
  min_nodes : Nat := 0
  max_nodes : Nat := 1
  taints : Option (List Taint) := none
  gpu : Bool := false
  single_subnet : Bool := false
  permissions_boundary : Option String := none
  spot : Bool := false
deriving DecidableEq, Repr

/-- `AWSNodeGroup.check_launch_template` (a `before` model validator on
the raw keys): any raw node-group input containing a
`launch_template` key raises. -/
def aws_node_group_check_launch_template (raw_keys : List String) :
    Except String Unit :=
  if "launch_template" ∈ raw_keys then
    .error "The launch_template field is currently unavailable and has been removed from the configuration schema."
  else
    .ok ()

/-- The taint-effect translation of the `convert_taints` field
validators (GCP and AWS node-group input vars). -/
def convert_taint_effect : TaintEffectEnum → String
  | .NoSchedule => "NO_SCHEDULE"
  | .PreferNoSchedule => "PREFER_NO_SCHEDULE"
  | .NoExecute => "NO_EXECUTE"

/-- One converted taint dict `{key, value, effect}`. -/
def convert_taint (t : Taint) : String × String × String :=
  (t.key, t.value, convert_taint_effect t.effect)

/-- `AWSNodeGroupInputVars` (with `ami_type` kept as the enum value
string and `node_taints` as converted dicts). -/
structure AWSNodeGroupInputVars where
  name : String
  instance_type : String
  gpu : Bool := false
  min_size : Nat
  desired_size : Nat
  max_size : Nat
  single_subnet : Bool
  permissions_boundary : Option String := none
  spot : Bool := false
  ami_type : Option String := none
  launch_template : Option AWSNodeLaunchTemplate := none
  node_taints : List (String × String × String)
deriving DecidableEq, Repr

/-- One element of the `node_groups` list built by the AWS branch of
`KubernetesInfrastructureStage.input_vars`: `launch_template=None` and
`ami_type=construct_aws_ami_type(gpu_enabled=node_group.gpu,
launch_template=None)` are hard-coded; `convert_taints` iterates the
pool taints, so an unset (`None`) taint list raises a `TypeError`. -/
def aws_compile_node_group (name : String) (node_group : AWSNodeGroup) :
    Except String AWSNodeGroupInputVars :=
  match node_group.taints with
  | none => .error "TypeError: NoneType object is not iterable"
  | some taints =>
    .ok { name := name
          instance_type := node_group.instance_
          gpu := node_group.gpu
          min_size := node_group.min_nodes
          desired_size := node_group.min_nodes
          max_size := node_group.max_nodes
          single_subnet := node_group.single_subnet
          permissions_boundary := node_group.permissions_boundary
          launch_template := none
          node_taints := taints.map convert_taint
          ami_type := some (construct_aws_ami_type node_group.gpu none)
          spot := node_group.spot }

/-- C4: `construct_aws_ami_type` returns `CUSTOM` whenever the launch
template is present and carries a non-empty `ami_id`, regardless of
the `gpu_enabled` flag; otherwise it returns `AL2_x86_64_GPU` when
`gpu_enabled` is true and `AL2_x86_64` when it is false. -/
theorem construct_aws_ami_type_spec (gpu_enabled : Bool)
    (launch_template : Option AWSNodeLaunchTemplate) :
    (∀ lt s, launch_template = some lt → lt.ami_id = some s → s ≠ "" →
        construct_aws_ami_type gpu_enabled launch_template = "CUSTOM")
  ∧ (¬ (∃ lt s, launch_template = some lt ∧ lt.ami_id = some s ∧ s ≠ "") →
        construct_aws_ami_type gpu_enabled launch_template =
          if gpu_enabled then "AL2_x86_64_GPU" else "AL2_x86_64") := by
  constructor
  · intro lt s hlt hs hne
    subst hlt
    simp [construct_aws_ami_type, launch_template_has_truthy_ami_id, hs, hne]
  · intro h
    match hlt : launch_template with
    | none =>
      simp [construct_aws_ami_type, launch_template_has_truthy_ami_id]
    | some lt =>
      match hs : lt.ami_id with
      | none =>
        simp [construct_aws_ami_type, launch_template_has_truthy_ami_id, hs]
      | some s =>
        have : s = "" := by
          by_contra hne
          exact h ⟨lt, s, rfl, hs, hne⟩
        subst this
        simp [construct_aws_ami_type, launch_template_has_truthy_ami_id, hs]

/-- Witness for C4: the launch template takes precedence over the GPU
flag. -/
theorem construct_aws_ami_type_spec_witness :
    construct_aws_ami_type true
        (some { pre_bootstrap_command := none, ami_id := some "ami-1" }) = "CUSTOM" :=
  (construct_aws_ami_type_spec true
      (some { pre_bootstrap_command := none, ami_id := some "ami-1" })).1
    { pre_bootstrap_command := none, ami_id := some "ami-1" } "ami-1" rfl rfl (by decide)

/-- C5: `set_missing_taints_to_default_taints` assigns the empty taint
list to an unset pool named `general`, exactly the single
`dedicated=nebari:NoSchedule` taint to any other unset pool, and
leaves every pool with set taints (including an explicitly empty
list) untouched. -/
theorem set_missing_taints_spec (pools : List (String × NodeGroup))
    (name : String) (ng : NodeGroup) (hmem : (name, ng) ∈ pools) :
    (ng.taints = none → name = "general" →
      (name, { ng with taints := some [] }) ∈ set_missing_taints_to_default_taints pools)
  ∧ (ng.taints = none → name ≠ "general" →
      (name, { ng with taints := some [Taint.mk "dedicated" "nebari" .NoSchedule] }) ∈
        set_missing_taints_to_default_taints pools)
  ∧ (∀ ts, ng.taints = some ts →
      (name, ng) ∈ set_missing_taints_to_default_taints pools) := by
  refine ⟨?_, ?_, ?_⟩
  · intro h hg
    unfold set_missing_taints_to_default_taints
    refine List.mem_map.mpr ⟨(name, ng), hmem, ?_⟩
    simp [h, hg, DEFAULT_GENERAL_NODE_GROUP_TAINTS]
  · intro h hg
    unfold set_missing_taints_to_default_taints
    refine List.mem_map.mpr ⟨(name, ng), hmem, ?_⟩
    simp [h, hg, DEFAULT_NODE_GROUP_TAINTS]
  · intro ts h
    unfold set_missing_taints_to_default_taints
    refine List.mem_map.mpr ⟨(name, ng), hmem, ?_⟩
    simp [h]

/-- Witness for C5: a `general` pool and a `user` pool, both with
unset taints, receive their name-keyed defaults. -/
theorem set_missing_taints_spec_witness :
    ("user", ({ instance_ := "m5.xlarge",
                taints := some [{ key := "dedicated", value := "nebari",
                                  effect := .NoSchedule }] } : NodeGroup)) ∈
      set_missing_taints_to_default_taints
        [("general", { instance_ := "m5.2xlarge", taints := none }),
         ("user", { instance_ := "m5.xlarge", taints := none })] :=
  (set_missing_taints_spec
      [("general", { instance_ := "m5.2xlarge", taints := none }),
       ("user", { instance_ := "m5.xlarge", taints := none })]
      "user" { instance_ := "m5.xlarge", taints := none }
      (by decide)).2.1 rfl (by decide)

/-- C9: for the cloud providers the node-selector map is exactly the
three canonical pool names with the provider-fixed label key and the
pool name as value; for `existing`/`local` it is the user-declared
`node_selectors` map read directly from the config. -/
theorem calculate_node_groups_spec (provider : ProviderEnum)
    (existing_node_selectors local_node_selectors : List (String × KeyValueDict)) :
    (provider = .aws →
      calculate_node_groups provider existing_node_selectors local_node_selectors =
        [("general", { key := "eks.amazonaws.com/nodegroup", value := "general" }),
         ("user", { key := "eks.amazonaws.com/nodegroup", value := "user" }),
         ("worker", { key := "eks.amazonaws.com/nodegroup", value := "worker" })])
  ∧ (provider = .gcp →
      calculate_node_groups provider existing_node_selectors local_node_selectors =
        [("general", { key := "cloud.google.com/gke-nodepool", value := "general" }),
         ("user", { key := "cloud.google.com/gke-nodepool", value := "user" }),
         ("worker", { key := "cloud.google.com/gke-nodepool", value := "worker" })])
  ∧ (provider = .azure →
      calculate_node_groups provider existing_node_selectors local_node_selectors =
        [("general", { key := "azure-node-pool", value := "general" }),
         ("user", { key := "azure-node-pool", value := "user" }),
         ("worker", { key := "azure-node-pool", value := "worker" })])
  ∧ (provider = .existing →
      calculate_node_groups provider existing_node_selectors local_node_selectors =
        existing_node_selectors)
  ∧ (provider = .localKind →
      calculate_node_groups provider existing_node_selectors local_node_selectors =
        local_node_selectors) := by
  refine ⟨?_, ?_, ?_, ?_, ?_⟩ <;> rintro rfl <;> rfl

/-- Witness for C9: the AWS node-selector map is fixed even though the
user-declared selector maps are empty. -/
theorem calculate_node_groups_spec_witness :
    calculate_node_groups .aws [] [] =
      [("general", { key := "eks.amazonaws.com/nodegroup", value := "general" }),
       ("user", { key := "eks.amazonaws.com/nodegroup", value := "user" }),
       ("worker", { key := "eks.amazonaws.com/nodegroup", value := "worker" })] :=
  (calculate_node_groups_spec .aws [] []).1 rfl

/-- C10: every compiled AWS node-group record has
`launch_template = None` and a GPU-flag-determined `ami_type` that is
never `CUSTOM`; raw AWS node-group input containing a
`launch_template` key is rejected during validation. -/
theorem aws_compiled_node_group_spec (name : String) (node_group : AWSNodeGroup)
    (ts : List Taint) (h : node_group.taints = some ts) :
    (∃ iv, aws_compile_node_group name node_group = .ok iv ∧
        iv.launch_template = none ∧
        iv.ami_type = some (if node_group.gpu then "AL2_x86_64_GPU" else "AL2_x86_64") ∧
        iv.ami_type ≠ some "CUSTOM")
  ∧ (∀ raw_keys, "launch_template" ∈ raw_keys →
      aws_node_group_check_launch_template raw_keys =
        .error "The launch_template field is currently unavailable and has been removed from the configuration schema.") := by
  constructor
  · refine ⟨{ name := name
              instance_type := node_group.instance_
              gpu := node_group.gpu
              min_size := node_group.min_nodes
              desired_size := node_group.min_nodes
              max_size := node_group.max_nodes
              single_subnet := node_group.single_subnet
              permissions_boundary := node_group.permissions_boundary
              launch_template := none
              node_taints := ts.map convert_taint
              ami_type := some (construct_aws_ami_type node_group.gpu none)
              spot := node_group.spot }, ?_, rfl, ?_, ?_⟩
    · unfold aws_compile_node_group
      rw [h]
    · cases hg : node_group.gpu <;>
        simp [construct_aws_ami_type, launch_template_has_truthy_ami_id, hg]
    · cases hg : node_group.gpu <;>
        simp [construct_aws_ami_type, launch_template_has_truthy_ami_id, hg]
  · intro raw_keys hmem
    simp [aws_node_group_check_launch_template, hmem]

/-- Witness for C10: a GPU pool compiles to `AL2_x86_64_GPU` with no
launch template, and raw input with a `launch_template` key is
rejected. -/
theorem aws_compiled_node_group_spec_witness :
    ∃ iv, aws_compile_node_group "worker"
        { instance_ := "g4dn.xlarge", gpu := true, taints := some [] } = .ok iv ∧
      iv.launch_template = none ∧
      iv.ami_type = some "AL2_x86_64_GPU" ∧
      iv.ami_type ≠ some "CUSTOM" :=
  (aws_compiled_node_group_spec "worker"
      { instance_ := "g4dn.xlarge", gpu := true, taints := some [] } [] rfl).1

/-- C6 (code bug): an `existing` provider config with its default
(unset) `kube_context` passes provider validation, yet the
existing-provider branch of `input_vars` fails: `ExistingInputVars`
requires `kube_context` to be a string and rejects `None`. -/
theorem input_vars_existing_none_fails :
    ({} : ExistingProvider).kube_context = none ∧
    existing_input_vars {} = .error "Input should be a valid string" :=
  ⟨rfl, rfl⟩

/-- C8: with a node-resource-group suffix of length between 1 and 79
(the imported constant satisfies this), a supplied Azure resource
group name is accepted exactly when the combined length is in
`[1, 90]`, the name fully matches `^[\w\-\.\(\)]+$`, and the name
does not end with a period; in particular `"a" * 90` fails, a name
ending in `.` fails, a name containing `!` fails, and
`"my-rg_1.0()"` passes. -/
theorem azure_resource_group_name_spec (suffix v : String)
    (h1 : 1 ≤ suffix.length) (h79 : suffix.length ≤ 79) :
    (azure_validate_resource_group_name suffix (some v) = .ok (some v) ↔
      (1 ≤ v.length + suffix.length ∧ v.length + suffix.length ≤ 90 ∧
       v.data ≠ [] ∧ v.data.all azure_resource_group_char = true ∧
       v.data.getLast? ≠ some '.'))
  ∧ (∃ e, azure_validate_resource_group_name suffix
      (some (String.mk (List.replicate 90 'a'))) = .error e)
  ∧ (∃ e, azure_validate_resource_group_name suffix (some "my-rg.") = .error e)
  ∧ (∃ e, azure_validate_resource_group_name suffix (some "my!rg") = .error e)
  ∧ (azure_validate_resource_group_name suffix (some "my-rg_1.0()") =
      .ok (some "my-rg_1.0()")) := by
  refine ⟨?_, ?_, ?_, ?_, ?_⟩
  · constructor
    · intro h
      unfold azure_validate_resource_group_name at h
      dsimp only at h
      split_ifs at h with hlen hchars hdot
      push_neg at hlen hchars
      exact ⟨hlen.1, hlen.2, hchars.1, hchars.2, hdot⟩
    · rintro ⟨hge, hle, hne, hall, hdot⟩
      unfold azure_validate_resource_group_name
      dsimp only
      rw [if_neg (by omega), if_neg (by simp [hne, hall]), if_neg hdot]
  · refine ⟨.invalidResourceGroupLength suffix, ?_⟩
    unfold azure_validate_resource_group_name
    dsimp only
    rw [if_pos]
    right
    have : (String.mk (List.replicate 90 'a')).length = 90 := rfl
    omega
  · refine ⟨.invalidResourceGroupPeriod, ?_⟩
    unfold azure_validate_resource_group_name
    dsimp only
    rw [if_neg (by have e : ("my-rg." : String).length = 6 := rfl; rw [e]; omega),
      if_neg (by decide), if_pos (by decide)]
  · refine ⟨.invalidResourceGroupChars, ?_⟩
    unfold azure_validate_resource_group_name
    dsimp only
    rw [if_neg (by have e : ("my!rg" : String).length = 5 := rfl; rw [e]; omega),
      if_pos (by decide)]
  · unfold azure_validate_resource_group_name
    dsimp only
    rw [if_neg (by have e : ("my-rg_1.0()" : String).length = 11 := rfl; rw [e]; omega),
      if_neg (by decide), if_neg (by decide)]

/-- Witness for C8 at the concrete suffix `-node-resource-group`:
`"my-rg_1.0()"` passes and the three failing examples fail. -/
theorem azure_resource_group_name_spec_witness :
    azure_validate_resource_group_name "-node-resource-group" (some "my-rg_1.0()") =
      .ok (some "my-rg_1.0()") :=
  (azure_resource_group_name_spec "-node-resource-group" "my-rg_1.0()"
      (by decide) (by decide)).2.2.2.2

/-- Left cancellation for string append. -/
theorem string_append_right_inj (a b c : String) (h : a ++ b = a ++ c) : b = c := by
  have h2 := congrArg String.data h
  simp only [String.data_append] at h2
  exact String.ext (List.append_cancel_left h2)

/-- C3: the AWS KMS key check runs only when an ARN is supplied, fails
when the substring match yields zero or several candidates, when the
resolved Arn differs from the request, or when the key is not
customer-managed; and for `KeySpec != SYMMETRIC_DEFAULT` it produces
three pairwise-distinct diagnostics: MAC usage, non-encrypt-decrypt
usage, and non-symmetric spec. -/
theorem aws_kms_key_check_spec (keys : List (String × KmsKey)) (arn : String) :
    (aws_check_kms keys none = .ok () ∧ aws_check_kms keys (some none) = .ok ())
  ∧ ((kms_candidate_ids keys arn).length ≠ 1 →
      aws_check_kms keys (some (some arn)) =
        .error (.kmsKeyNotFound arn (kms_customer_symmetric_arns keys)))
  ∧ (∀ kid k, kms_candidate_ids keys arn = [kid] → keys.lookup kid = some k →
      (k.Arn ≠ arn →
        aws_check_kms keys (some (some arn)) =
          .error (.kmsKeyNotFound arn (kms_customer_symmetric_arns keys)))
      ∧ (k.Arn = arn → k.KeyManager ≠ "CUSTOMER" →
          aws_check_kms keys (some (some arn)) = .error (.kmsKeyNotCustomerManaged kid))
      ∧ (k.Arn = arn → k.KeyManager = "CUSTOMER" → k.KeySpec ≠ "SYMMETRIC_DEFAULT" →
          ((k.KeyUsage = "GENERATE_VERIFY_MAC" →
              aws_check_kms keys (some (some arn)) = .error (.kmsKeyMacUsage kid))
            ∧ (k.KeyUsage ≠ "GENERATE_VERIFY_MAC" → k.KeyUsage ≠ "ENCRYPT_DECRYPT" →
              aws_check_kms keys (some (some arn)) =
                .error (.kmsKeyWrongUsageNotSymmetric kid))
            ∧ (k.KeyUsage = "ENCRYPT_DECRYPT" →
              aws_check_kms keys (some (some arn)) =
                .error (.kmsKeyNotSymmetric kid)))))
  ∧ (∀ kid, (CloudError.kmsKeyMacUsage kid).message ≠
        (CloudError.kmsKeyWrongUsageNotSymmetric kid).message
      ∧ (CloudError.kmsKeyMacUsage kid).message ≠
        (CloudError.kmsKeyNotSymmetric kid).message
      ∧ (CloudError.kmsKeyWrongUsageNotSymmetric kid).message ≠
        (CloudError.kmsKeyNotSymmetric kid).message) := by
  refine ⟨⟨rfl, rfl⟩, ?_, ?_, ?_⟩
  · intro hlen
    simp only [aws_check_kms]
    rw [if_pos (Or.inl hlen)]
  · intro kid k hk hl
    have base : aws_check_kms keys (some (some arn)) =
        (if k.Arn ≠ arn then
          Except.error (.kmsKeyNotFound arn (kms_customer_symmetric_arns keys))
        else if k.KeyManager ≠ "CUSTOMER" then
          Except.error (.kmsKeyNotCustomerManaged kid)
        else if k.KeySpec ≠ "SYMMETRIC_DEFAULT" then
          if k.KeyUsage = "GENERATE_VERIFY_MAC" then
            Except.error (.kmsKeyMacUsage kid)
          else if k.KeyUsage ≠ "ENCRYPT_DECRYPT" then
            Except.error (.kmsKeyWrongUsageNotSymmetric kid)
          else
            Except.error (.kmsKeyNotSymmetric kid)
        else Except.ok ()) := by
      simp only [aws_check_kms, hk, List.headD, hl, Option.getD, List.length_singleton,
        ne_eq, not_true_eq_false, false_or]
    refine ⟨?_, ?_, ?_⟩
    · intro hA
      rw [base, if_pos hA]
    · intro hA hM
      rw [base, if_neg (by simp [hA]), if_pos hM]
    · intro hA hM hS
      refine ⟨?_, ?_, ?_⟩
      · intro hU
        rw [base, if_neg (by simp [hA]), if_neg (by simp [hM]), if_pos hS, if_pos hU]
      · intro hU1 hU2
        rw [base, if_neg (by simp [hA]), if_neg (by simp [hM]), if_pos hS, if_neg hU1,
          if_pos hU2]
      · intro hU
        rw [base, if_neg (by simp [hA]), if_neg (by simp [hM]), if_pos hS,
          if_neg (by rw [hU]; decide), if_neg (by rw [hU]; decide)]
  · intro kid
    refine ⟨?_, ?_, ?_⟩ <;>
      · intro h
        have h2 := string_append_right_inj _ _ _ h
        exact absurd h2 (by decide)

/-- Witness for C3: a customer-managed MAC key (`KeySpec = HMAC_256`,
`KeyUsage = GENERATE_VERIFY_MAC`) fails with the MAC-usage-specific
diagnostic. -/
theorem aws_kms_key_check_spec_witness :
    aws_check_kms
        [("1234abcd", { Arn := "arn:aws:kms:us-east-1:1234abcd",
                        KeyManager := "CUSTOMER", KeySpec := "HMAC_256",
                        KeyUsage := "GENERATE_VERIFY_MAC" })]
        (some (some "arn:aws:kms:us-east-1:1234abcd")) =
      .error (.kmsKeyMacUsage "1234abcd") :=
  (((aws_kms_key_check_spec
        [("1234abcd", { Arn := "arn:aws:kms:us-east-1:1234abcd",
                        KeyManager := "CUSTOMER", KeySpec := "HMAC_256",
                        KeyUsage := "GENERATE_VERIFY_MAC" })]
        "arn:aws:kms:us-east-1:1234abcd").2.2.1 "1234abcd"
      { Arn := "arn:aws:kms:us-east-1:1234abcd", KeyManager := "CUSTOMER",
        KeySpec := "HMAC_256", KeyUsage := "GENERATE_VERIFY_MAC" }
      (by decide) (by decide)).2.2 rfl rfl (by decide)).1 rfl

/-- C2 counterexample: Azure and AWS reject `1.28` even though it is a
prefix of the available version `1.28.3` (so prefix matching does not
hold for them), and GCP with an unset version raises instead of
selecting the last available entry. -/
theorem kubernetes_version_prefix_counterexample :
    (azure_validate_kubernetes_version ["1.28.3"] (some "1.28") =
        .error (.unsupportedVersion "1.28" ["1.28.3"])
      ∧ ("1.28").data.isPrefixOf ("1.28.3").data = true)
  ∧ (aws_check_version ["1.28.3"] (some (some "1.28")) =
      .error (.unsupportedVersion "1.28" ["1.28.3"]))
  ∧ (gcp_check_version ["1.28.3"] none = .error (.keyError "kubernetes_version")) := by
  decide

/-- C2 (amended): GCP requires the version key and accepts a set value
exactly when it is a prefix of some available version; Azure and AWS
select the last inventory entry when the value is `None` and accept a
set value exactly when it is an exact member of the available list;
every version rejection carries the available list. -/
theorem kubernetes_version_check_spec (available : List String) (v : String)
    (hne : available ≠ []) :
    (gcp_check_version available (some v) = .ok v ↔
      available.any (fun w => v.data.isPrefixOf w.data) = true)
  ∧ (gcp_check_version available (some v) = .ok v ∨
      gcp_check_version available (some v) = .error (.unsupportedVersion v available))
  ∧ (gcp_check_version available none = .error (.keyError "kubernetes_version"))
  ∧ (azure_validate_kubernetes_version available (some v) = .ok v ↔ v ∈ available)
  ∧ (azure_validate_kubernetes_version available (some v) = .ok v ∨
      azure_validate_kubernetes_version available (some v) =
        .error (.unsupportedVersion v available))
  ∧ (azure_validate_kubernetes_version available none = .ok (available.getLast hne))
  ∧ (aws_check_version available (some (some v)) = .ok v ↔ v ∈ available)
  ∧ (aws_check_version available (some (some v)) = .ok v ∨
      aws_check_version available (some (some v)) =
        .error (.unsupportedVersion v available))
  ∧ (aws_check_version available (some none) = .ok (available.getLast hne))
  ∧ (aws_check_version available none = .error (.keyError "kubernetes_version")) := by
  have hlen : ¬ available.length = 0 := by
    simpa [List.length_eq_zero] using hne
  have hlast : available.getLast? = some (available.getLast hne) :=
    List.getLast?_eq_getLast available hne
  have hlastD : available.getLastD "" = available.getLast hne := by
    rw [List.getLastD_eq_getLast?, hlast]
    rfl
  refine ⟨?_, ?_, rfl, ?_, ?_, ?_, ?_, ?_, ?_, rfl⟩
  · by_cases hc : (available.any fun w => v.data.isPrefixOf w.data) = true
    · simp [gcp_check_version, hc]
    · simp [gcp_check_version, hc]
  · by_cases hc : (available.any fun w => v.data.isPrefixOf w.data) = true
    · exact Or.inl (by simp [gcp_check_version, hc])
    · exact Or.inr (by simp [gcp_check_version, hc])
  · by_cases hc : v ∈ available
    · simp [azure_validate_kubernetes_version, hc]
    · simp [azure_validate_kubernetes_version, hc]
  · by_cases hc : v ∈ available
    · exact Or.inl (by simp [azure_validate_kubernetes_version, hc])
    · exact Or.inr (by simp [azure_validate_kubernetes_version, hc])
  · simp [azure_validate_kubernetes_version, hlast]
  · by_cases hc : v ∈ available
    · simp [aws_check_version, hlen, hc]
    · simp [aws_check_version, hlen, hc]
  · by_cases hc : v ∈ available
    · exact Or.inl (by simp [aws_check_version, hlen, hc])
    · exact Or.inr (by simp [aws_check_version, hlen, hc])
  · simp [aws_check_version, hlen, hlast]

/-- Witness for C2: with the sorted inventory `[1.27.1, 1.28.3]`, an
explicit `None` version selects `1.28.3` for Azure and AWS, GCP
accepts the prefix `1.28`, and AWS accepts the exact `1.28.3`. -/
theorem kubernetes_version_check_spec_witness :
    (["1.27.1", "1.28.3"] : List String) ≠ [] ∧
    azure_validate_kubernetes_version ["1.27.1", "1.28.3"] none = .ok "1.28.3" ∧
    aws_check_version ["1.27.1", "1.28.3"] (some none) = .ok "1.28.3" ∧
    gcp_check_version ["1.27.1", "1.28.3"] (some "1.28") = .ok "1.28" := by
  have h := kubernetes_version_check_spec ["1.27.1", "1.28.3"] "1.28" (by decide)
  exact ⟨by decide, h.2.2.2.2.2.1, h.2.2.2.2.2.2.2.2.1, h.1.mpr (by decide)⟩

/-- C1 counterexample: on the empty document `check_provider` sets the
provider to `local` but synthesizes no Local config block — the
`local` key of the resulting document is still absent (`none`), not a
synthesized empty config.  (Block synthesis happens only on the
explicit-provider path.) -/
theorem check_provider_empty_doc_no_local_block :
    check_provider
        { provider := none, local_ := none, existing := none,
          google_cloud_platform := none, amazon_web_services := none, azure := none } =
      .ok { doc := { provider := some "local", local_ := none, existing := none,
                     google_cloud_platform := none, amazon_web_services := none,
                     azure := none },
            warnings := [] } := by
  decide

/-- C1 (amended): with no explicit provider kind, more than one
present provider-block key fails with an error naming all of the
present blocks; exactly one present block is adopted as the active
kind; no present block defaults the provider to `local` — but no
empty Local config is synthesized on this path. -/
theorem check_provider_scan_spec (d : RawDoc) (h : d.provider = none) :
    (2 ≤ (present_blocks d).length →
      check_provider d = .error (.multipleProviders (present_blocks d)))
  ∧ (∀ k, present_blocks d = [k] →
      check_provider d =
        .ok { doc := { d with provider := some (provider_name_abbreviation_map k) },
              warnings := [] })
  ∧ (present_blocks d = [] →
      check_provider d =
        .ok { doc := { d with provider := some "local" }, warnings := [] }) := by
  refine ⟨?_, ?_, ?_⟩
  · intro hlen
    simp only [check_provider, h]
    rw [if_pos (by omega)]
  · intro k hk
    simp only [check_provider, h, hk]
    rfl
  · intro hk
    simp only [check_provider, h, hk]
    rfl

/-- Witness for C1: a document with both a `google_cloud_platform` and
an `amazon_web_services` block and no provider key fails with an
error naming both blocks. -/
theorem check_provider_scan_spec_witness :
    check_provider
        { provider := none, local_ := none, existing := none,
          google_cloud_platform := some true, amazon_web_services := some true,
          azure := none } =
      .error (.multipleProviders ["google_cloud_platform", "amazon_web_services"]) := by
  have h := (check_provider_scan_spec
      { provider := none, local_ := none, existing := none,
        google_cloud_platform := some true, amazon_web_services := some true,
        azure := none } rfl).1 (by decide)
  rw [h]
  decide

/-- C7: with an explicitly named provider kind, an unknown name is
rejected with an error listing the valid kinds; for `local`/`existing`
with no corresponding block an empty (truthy) default block is
synthesized; and extra truthy blocks for other providers only produce
a warning naming them while selection succeeds. -/
theorem check_provider_explicit_spec (d : RawDoc) (p : String)
    (h : d.provider = some p) :
    (p ∉ provider_kind_names →
      check_provider d =
        .error (.unknownProvider p ["local", "existing", "aws", "gcp", "azure"]))
  ∧ (p ∈ provider_kind_names →
      ∃ r, check_provider d = .ok r
        ∧ ((p = "local" ∨ p = "existing") → block_value d p = none →
            block_value r.doc p = some true)
        ∧ r.warnings =
            (if (truthy_blocks d).filter (fun k => k ≠ provider_enum_name_map p) = []
             then []
             else [(truthy_blocks d).filter (fun k => k ≠ provider_enum_name_map p)])) := by
  constructor
  · intro hnp
    simp only [check_provider, h]
    rw [if_neg hnp]
  · intro hp
    by_cases hcond : (p = "local" ∨ p = "existing") ∧ block_value d p = none
    · obtain ⟨hpe, hb⟩ := hcond
      have hE : (truthy_blocks (set_block d p (some true))).filter
            (fun k => k ≠ provider_enum_name_map p) =
          (truthy_blocks d).filter (fun k => k ≠ provider_enum_name_map p) := by
        rcases hpe with hp1 | hp1 <;>
          · subst hp1
            simp only [truthy_blocks, List.filter_filter]
            apply List.filter_congr
            intro a ha
            simp only [provider_block_keys, List.mem_cons, List.not_mem_nil,
              or_false] at ha
            rcases ha with rfl | rfl | rfl | rfl | rfl <;>
              simp [set_block, block_value, provider_enum_name_map]
      have hcp : check_provider d =
          .ok { doc := set_block d p (some true),
                warnings :=
                  if (truthy_blocks (set_block d p (some true))).filter
                      (fun k => k ≠ provider_enum_name_map p) = [] then []
                  else [(truthy_blocks (set_block d p (some true))).filter
                      (fun k => k ≠ provider_enum_name_map p)] } := by
        simp only [check_provider, h]
        rw [if_pos hp, if_pos ⟨hpe, hb⟩]
      rw [hE] at hcp
      refine ⟨_, hcp, ?_, rfl⟩
      intro _ _
      rcases hpe with hp1 | hp1 <;>
        · subst hp1
          simp [set_block, block_value]
    · have hcp : check_provider d =
          .ok { doc := d,
                warnings :=
                  if (truthy_blocks d).filter
                      (fun k => k ≠ provider_enum_name_map p) = [] then []
                  else [(truthy_blocks d).filter
                      (fun k => k ≠ provider_enum_name_map p)] } := by
        simp only [check_provider, h]
        rw [if_pos hp, if_neg hcond]
      refine ⟨_, hcp, ?_, rfl⟩
      intro hpe hb
      exact absurd ⟨hpe, hb⟩ hcond

/-- Witness for C7: provider `local` with a truthy `gcp` block: the
empty Local block is synthesized and the single warning names the
extra `google_cloud_platform` block, with no error. -/
theorem check_provider_explicit_spec_witness :
    ∃ r, check_provider
        { provider := some "local", local_ := none, existing := none,
          google_cloud_platform := some true, amazon_web_services := none,
          azure := none } = .ok r
      ∧ (("local" = "local" ∨ "local" = "existing") →
          block_value
            { provider := some "local", local_ := none, existing := none,
              google_cloud_platform := some true, amazon_web_services := none,
              azure := none } "local" = none →
          block_value r.doc "local" = some true)
      ∧ r.warnings = [["google_cloud_platform"]] := by
  have h := (check_provider_explicit_spec
      { provider := some "local", local_ := none, existing := none,
        google_cloud_platform := some true, amazon_web_services := none,
        azure := none } "local" rfl).2 (by decide)
  obtain ⟨r, hr, hsynth, hw⟩ := h
  exact ⟨r, hr, hsynth, by rw [hw]; decide⟩

end Nebari
